import Mathlib

/-!
Shallow embedding of the AOG-backend Flask application (src/app.py) for
verification of its specification.  MongoDB collections are modelled as
lists of documents; `find_one` is the first match in insertion order,
`insert_one` appends, `update_one` rewrites the first match, and route
handlers are pure functions from a database state (plus request data and
an externally supplied clock / generated identifier) to an HTTP status,
a response body, and the successor database state.  Python `datetime`
values are opaque `Nat` ticks.  `None` database handles (the 503 branch
at the top of every handler) are modelled with `Option DB`.
-/

/-- A 24-character hexadecimal string, the only string form accepted by
`bson.ObjectId`; anything else raises `InvalidId`, which the handlers'
generic `except` clause converts to a 500 response. -/
def isValidObjectId (s : String) : Bool :=
  s.data.length == 24 && s.data.all (fun c => c.isDigit || (Char.ofNat 97 ≤ c && c ≤ Char.ofNat 102) || (Char.ofNat 65 ≤ c && c ≤ Char.ofNat 70))

/-- Document of the `events` collection, as built by `create_event`. -/
structure EventDoc where
  id : String
  title : String
  date : String
  time : String
  location : String
  description : String
  image : String
  category : String
  createdAt : Nat
  updatedAt : Option Nat
  deriving Repr, DecidableEq

/-- Document of the `sermons` collection, as built by `create_sermon`.
`views` is `none` when the document lacks the field (the handlers guard
with `.get('views', 0)`). -/
structure SermonDoc where
  id : String
  title : String
  speaker : String
  date : String
  series : String
  description : String
  thumbnail : String
  videoUrl : String
  audioUrl : String
  views : Option Nat
  createdAt : Nat
  deriving Repr, DecidableEq

/-- Document of the `admins` collection, as built by `register_admin`. -/
structure AdminDoc where
  id : String
  username : String
  email : String
  password : String
  createdAt : Nat
  deriving Repr, DecidableEq

/-- Document of the `subscribers` collection, as built by
`subscribe_newsletter`. -/
structure SubscriberDoc where
  id : String
  email : String
  status : String
  subscribedAt : Nat
  deriving Repr, DecidableEq

/-- Document of the `settings` collection.  `musicUrl` / `musicEnabled` /
`updatedAt` are `none` when the document lacks the field (the read
handlers guard with `.get(..., default)`). -/
structure SettingsDoc where
  type : String
  musicUrl : Option String
  musicEnabled : Option Bool
  updatedAt : Option Nat
  deriving Repr, DecidableEq

/-- The mongo database: one list per collection touched by the claims. -/
structure DB where
  events : List EventDoc
  sermons : List SermonDoc
  admins : List AdminDoc
  subscribers : List SubscriberDoc
  settings : List SettingsDoc
  deriving Repr, DecidableEq

/-- `update_one(filter, \x7b$set: ...\x7d)`: rewrite the first document
matching the filter, leave the rest untouched (matched_count is 0 iff no
document matches). -/
def updateFirst (p : α → Bool) (f : α → α) : List α → List α
  | [] => []
  | x :: xs => if p x then f x :: xs else x :: updateFirst p f xs

-- ==================== HEALTH CHECK ====================

/-- The process-level facts `health_check` inspects. -/
structure HealthEnv where
  mongoUriConfigured : Bool
  mongoInit : Bool
  dbHandle : Option Unit
  pingOk : Bool
  deriving Repr, DecidableEq

/-- `get_db`: returns the handle when the mongo extension is initialised
and exposes a db, else `None`. -/
def get_db (e : HealthEnv) : Option Unit :=
  if e.mongoInit then e.dbHandle else none

/-- `health_check` (GET /api/health): every failure branch — URI not
configured, extension not initialised, `get_db` returning `None`, or the
ping raising — answers 500; only a successful ping answers 200. -/
def health_check (e : HealthEnv) : Nat :=
  if e.mongoUriConfigured = false then 500
  else if e.mongoInit = false then 500
  else
    match get_db e with
    | none => 500
    | some _ => if e.pingOk then 200 else 500

-- ==================== EVENTS ====================

/-- JSON body of an event create/update request; `none` marks an absent
key, on which the subscript access `data[...]` raises `KeyError`. -/
structure EventPayload where
  title : Option String
  date : Option String
  time : Option String
  location : Option String
  description : Option String
  image : Option String
  category : Option String
  deriving Repr, DecidableEq

/-- `get_events` (GET /api/events): optional category filter (a missing
or empty query parameter is falsy, hence no filter), sorted by `date`
descending.  Body is the returned document list. -/
def get_events (db? : Option DB) (category : Option String) : Nat × List EventDoc :=
  match db? with
  | none => (503, [])
  | some db =>
    let query : Option String :=
      match category with
      | some c => if c == "" then none else some c
      | none => none
    let matched :=
      match query with
      | some c => db.events.filter (fun e => e.category == c)
      | none => db.events
    (200, List.insertionSort (fun a b => b.date ≤ a.date) matched)

/-- `get_event` (GET /api/events/:id): a malformed id makes
`ObjectId(event_id)` raise, caught by the generic handler as 500; a
well-formed id that matches nothing answers 404; otherwise 200 with the
document. -/
def get_event (db? : Option DB) (eid : String) : Nat × Option EventDoc :=
  match db? with
  | none => (503, none)
  | some db =>
    if isValidObjectId eid = false then (500, none)
    else
      match db.events.find? (fun e => e.id == eid) with
      | none => (404, none)
      | some e => (200, some e)

/-- `create_event` (POST /api/events): the handler reads the required
keys `title`, `date`, `time`, `location`, `description` by subscript in
that order — the first missing one raises `KeyError`, which the generic
handler turns into a 500 whose message is `Error: ` followed by the
quoted key; `image` and `category` use `.get` with defaults.  On success
the document (with `createdAt` stamped) is inserted and 201 returned
with the generated id. -/
def create_event (db? : Option DB) (p : EventPayload) (now : Nat) (newId : String) :
    (Nat × String × Option String) × Option DB :=
  match db? with
  | none => ((503, "Database not available", none), none)
  | some db =>
    match p.title with
    | none => ((500, "Error: \x27title\x27", none), some db)
    | some title =>
    match p.date with
    | none => ((500, "Error: \x27date\x27", none), some db)
    | some date =>
    match p.time with
    | none => ((500, "Error: \x27time\x27", none), some db)
    | some time =>
    match p.location with
    | none => ((500, "Error: \x27location\x27", none), some db)
    | some location =>
    match p.description with
    | none => ((500, "Error: \x27description\x27", none), some db)
    | some description =>
      let doc : EventDoc :=
        { id := newId, title := title, date := date, time := time,
          location := location, description := description,
          image := p.image.getD "", category := p.category.getD "upcoming",
          createdAt := now, updatedAt := none }
      ((201, "Event created successfully", some newId),
       some { db with events := db.events ++ [doc] })

/-- `update_event` (PUT /api/events/:id): builds the `$set` document
(required keys by subscript — `KeyError` becomes 500 — and defaults for
`image`/`category`, plus a fresh `updatedAt`), then `update_one` on the
id; a malformed id raises inside `update_one`'s argument, 500; zero
matches answer 404 and change nothing. -/
def update_event (db? : Option DB) (eid : String) (p : EventPayload) (now : Nat) :
    (Nat × String) × Option DB :=
  match db? with
  | none => ((503, "Database not available"), none)
  | some db =>
    match p.title with
    | none => ((500, "Error: \x27title\x27"), some db)
    | some title =>
    match p.date with
    | none => ((500, "Error: \x27date\x27"), some db)
    | some date =>
    match p.time with
    | none => ((500, "Error: \x27time\x27"), some db)
    | some time =>
    match p.location with
    | none => ((500, "Error: \x27location\x27"), some db)
    | some location =>
    match p.description with
    | none => ((500, "Error: \x27description\x27"), some db)
    | some description =>
      if isValidObjectId eid = false then
        ((500, "Error: \x27" ++ eid ++ "\x27 is not a valid ObjectId, it must be a 12-byte input or a 24-character hex string"), some db)
      else if (db.events.find? (fun e => e.id == eid)).isSome then
        let setFields : EventDoc → EventDoc := fun e =>
          { e with title := title, date := date, time := time,
                   location := location, description := description,
                   image := p.image.getD "", category := p.category.getD "upcoming",
                   updatedAt := some now }
        ((200, "Event updated successfully"),
         some { db with events := updateFirst (fun e => e.id == eid) setFields db.events })
      else
        ((404, "Event not found"), some db)

-- ==================== SERMONS ====================

/-- `get_sermon` (GET /api/sermons/:id): finds the sermon, then
`$inc`-rements its persisted `views` by one ($inc creates the field at 1
when absent), and returns the document with
`sermon.get('views', 0) + 1`, the post-increment value. -/
def get_sermon (db? : Option DB) (sid : String) : (Nat × Option SermonDoc) × Option DB :=
  match db? with
  | none => ((503, none), none)
  | some db =>
    if isValidObjectId sid = false then ((500, none), some db)
    else
      match db.sermons.find? (fun s => s.id == sid) with
      | none => ((404, none), some db)
      | some s =>
        let db' := { db with
          sermons := updateFirst (fun t => t.id == sid)
            (fun t => { t with views := some (t.views.getD 0 + 1) }) db.sermons }
        ((200, some { s with views := some (s.views.getD 0 + 1) }), some db')

-- ==================== ADMIN REGISTRATION ====================

/-- `register_admin` (POST /api/admin/register): the only duplicate
check is `find_one(\x7b'username': ...\x7d)`; when it misses, the admin
document (with the bcrypt hash supplied by the credential service) is
inserted.  No query ever inspects the `email` field. -/
def register_admin (db? : Option DB) (username email hashedPassword : String)
    (now : Nat) (newId : String) : (Nat × String × Option String) × Option DB :=
  match db? with
  | none => ((503, "Database not available", none), none)
  | some db =>
    match db.admins.find? (fun a => a.username == username) with
    | some _ => ((400, "Admin already exists", none), some db)
    | none =>
      let doc : AdminDoc :=
        { id := newId, username := username, email := email,
          password := hashedPassword, createdAt := now }
      ((201, "Admin created successfully", some newId),
       some { db with admins := db.admins ++ [doc] })

-- ==================== NEWSLETTER ====================

/-- `subscribe_newsletter` (POST /api/subscribe): `find_one` on the
email; ANY hit — whatever its `status` — answers 400 `Already
subscribed` and writes nothing; a miss inserts a fresh document with
status `active` and answers 201. -/
def subscribe_newsletter (db? : Option DB) (email : String) (now : Nat) (newId : String) :
    (Nat × String × Option String) × Option DB :=
  match db? with
  | none => ((503, "Database not available", none), none)
  | some db =>
    match db.subscribers.find? (fun s => s.email == email) with
    | some _ => ((400, "Already subscribed", none), some db)
    | none =>
      let doc : SubscriberDoc :=
        { id := newId, email := email, status := "active", subscribedAt := now }
      ((201, "Subscribed successfully", some newId),
       some { db with subscribers := db.subscribers ++ [doc] })

-- ==================== SETTINGS ====================

/-- JSON body of a settings PUT; both keys are read with `.get` and
defaults, so absence never raises. -/
structure SettingsPayload where
  musicUrl : Option String
  musicEnabled : Option Bool
  deriving Repr, DecidableEq

/-- `get_music_settings` (GET /api/settings/music): returns the stored
`musicUrl` only when a `type: site` document exists and its
`musicEnabled` is truthy; otherwise the body carries the empty url. -/
def get_music_settings (db? : Option DB) : Nat × String :=
  match db? with
  | none => (503, "")
  | some db =>
    match db.settings.find? (fun s => s.type == "site") with
    | none => (200, "")
    | some s =>
      if s.musicEnabled.getD false = false then (200, "")
      else (200, s.musicUrl.getD "")

/-- `update_settings` (PUT /api/settings): `update_one` keyed on the
fixed filter `\x7b'type': 'site'\x7d` with `upsert=True` — the first
matching document has every field of `settings_data` set, and when no
document matches a new one is created from the filter plus
`settings_data`. -/
def update_settings (db? : Option DB) (p : SettingsPayload) (now : Nat) :
    (Nat × String) × Option DB :=
  match db? with
  | none => ((503, "Database not available"), none)
  | some db =>
    let sd : SettingsDoc :=
      { type := "site", musicUrl := some (p.musicUrl.getD ""),
        musicEnabled := some (p.musicEnabled.getD false), updatedAt := some now }
    if (db.settings.find? (fun s => s.type == "site")).isSome then
      ((200, "Settings updated successfully"),
       some { db with settings := updateFirst (fun s => s.type == "site") (fun _ => sd) db.settings })
    else
      ((200, "Settings updated successfully"),
       some { db with settings := db.settings ++ [sd] })

/-- Number of `type: site` documents in the settings collection. -/
def siteCount (db : DB) : Nat :=
  (db.settings.filter (fun s => s.type == "site")).length

/-- Run a sequence of settings PUTs (each with its payload and clock). -/
def runSettingsUpdates (db : DB) (ops : List (SettingsPayload × Nat)) : DB :=
  ops.foldl (fun d op => ((update_settings (some d) op.1 op.2).2).getD d) db

-- ==================== HELPER LEMMAS ====================

/-- `find?` after `updateFirst` on the same predicate: when the rewrite
preserves the predicate, the first match is the rewritten first match. -/
theorem find?_updateFirst (p : α → Bool) (f : α → α)
    (hpf : ∀ x, p x = true → p (f x) = true) :
    ∀ l : List α, (updateFirst p f l).find? p = (l.find? p).map f := by
  intro l
  induction l with
  | nil => rfl
  | cons x xs ih =>
    cases hx : p x with
    | true =>
      simp only [updateFirst, hx, if_true]
      rw [List.find?_cons_of_pos _ (hpf x hx), List.find?_cons_of_pos _ hx]
      rfl
    | false =>
      simp only [updateFirst, hx, Bool.false_eq_true, if_false]
      rw [List.find?_cons_of_neg _ (by simp [hx]), List.find?_cons_of_neg _ (by simp [hx]), ih]

/-- `updateFirst` with a predicate-preserving rewrite keeps the number of
matching documents. -/
theorem length_filter_updateFirst (p : α → Bool) (f : α → α)
    (hpf : ∀ x, p x = true → p (f x) = true) :
    ∀ l : List α, ((updateFirst p f l).filter p).length = (l.filter p).length := by
  intro l
  induction l with
  | nil => rfl
  | cons x xs ih =>
    cases hx : p x with
    | true =>
      simp only [updateFirst, hx, if_true]
      rw [List.filter_cons_of_pos (hpf x hx), List.filter_cons_of_pos hx]
      simp
    | false =>
      simp only [updateFirst, hx, Bool.false_eq_true, if_false]
      rw [List.filter_cons_of_neg (by simp [hx]), List.filter_cons_of_neg (by simp [hx]), ih]

-- ==================== FIXTURES ====================

/-- Empty database. -/
def dbEmpty : DB := { events := [], sermons := [], admins := [], subscribers := [], settings := [] }

/-- Database holding one inactive subscriber. -/
def dbInactiveSub : DB :=
  { dbEmpty with subscribers := [{ id := "65a000000000000000000001", email := "a@b.c",
                                   status := "inactive", subscribedAt := 0 }] }

/-- Database holding one administrator. -/
def dbOneAdmin : DB :=
  { dbEmpty with admins := [{ id := "65a000000000000000000004", username := "alice",
                              email := "shared@x.y", password := "h1", createdAt := 0 }] }

/-- An event create/update payload lacking `title`. -/
def noTitlePayload : EventPayload :=
  { title := none, date := some "2025-01-01", time := some "10:00",
    location := some "Hall", description := some "d", image := none, category := none }

/-- An event create/update payload lacking only `date`. -/
def noDatePayload : EventPayload :=
  { title := some "T", date := none, time := some "10:00",
    location := some "Hall", description := some "d", image := none, category := none }

/-- A complete event create/update payload. -/
def fullEventPayload : EventPayload :=
  { title := some "T", date := some "2025-01-01", time := some "10:00",
    location := some "Hall", description := some "d", image := none, category := some "youth" }

/-- A stored event used by witnesses. -/
def eventA : EventDoc :=
  { id := "65a000000000000000000010", title := "A", date := "2025-03-01", time := "09:00",
    location := "L1", description := "d1", image := "", category := "youth",
    createdAt := 3, updatedAt := none }

/-- A second stored event, distinct category and earlier date. -/
def eventB : EventDoc :=
  { id := "65a000000000000000000011", title := "B", date := "2025-01-05", time := "10:00",
    location := "L2", description := "d2", image := "", category := "kids",
    createdAt := 4, updatedAt := none }

/-- A third stored event, same category as `eventA`, latest date. -/
def eventC : EventDoc :=
  { id := "65a000000000000000000012", title := "C", date := "2025-04-01", time := "11:00",
    location := "L3", description := "d3", image := "", category := "youth",
    createdAt := 5, updatedAt := none }

/-- Database holding the three events. -/
def dbEvents : DB := { dbEmpty with events := [eventA, eventB, eventC] }

/-- A stored sermon with two recorded views. -/
def sermonA : SermonDoc :=
  { id := "65a000000000000000000020", title := "S", speaker := "P", date := "2025-02-02",
    series := "", description := "d", thumbnail := "", videoUrl := "", audioUrl := "",
    views := some 2, createdAt := 1 }

/-- Database holding one sermon. -/
def dbSermon : DB := { dbEmpty with sermons := [sermonA] }

/-- A `type: site` settings document with music enabled. -/
def siteDocOn : SettingsDoc :=
  { type := "site", musicUrl := some "https://m.example/a.mp3", musicEnabled := some true,
    updatedAt := none }

/-- Database holding the enabled settings document. -/
def dbMusicOn : DB := { dbEmpty with settings := [siteDocOn] }

-- ==================== CLAIM THEOREMS ====================

/-- C10: every failure mode of the health probe — persistence URI not
configured, mongo extension uninitialised, database handle unavailable,
or the ping raising — answers 500, never the 503 that the other
handlers (here `get_events`) return when the database handle is `None`. -/
theorem health_check_failures_return_500 (e : HealthEnv)
    (h : e.mongoUriConfigured = false ∨ e.mongoInit = false ∨
         e.dbHandle = none ∨ e.pingOk = false) :
    health_check e = 500 ∧ health_check e ≠ 503 ∧ (get_events none none).1 = 503 := by
  obtain ⟨u, i, d, p⟩ := e
  cases u <;> cases i <;> cases d <;> cases p <;>
    simp_all [health_check, get_db, get_events]

/-- C10 witness: with the handle unavailable the probe answers 500. -/
theorem health_check_failures_return_500_witness :
    health_check { mongoUriConfigured := true, mongoInit := true,
                   dbHandle := none, pingOk := true } = 500 ∧
    health_check { mongoUriConfigured := true, mongoInit := true,
                   dbHandle := none, pingOk := true } ≠ 503 ∧
    (get_events none none).1 = 503 :=
  health_check_failures_return_500
    { mongoUriConfigured := true, mongoInit := true, dbHandle := none, pingOk := true }
    (Or.inr (Or.inr (Or.inl rfl)))

/-- C9: the public music projection returns the empty url whenever no
`type: site` settings document exists or its `musicEnabled` flag is
absent or false; the stored `musicUrl` is disclosed exactly when
`musicEnabled` is true. -/
theorem get_music_settings_projection (db : DB) :
    (db.settings.find? (fun s => s.type == "site") = none →
       get_music_settings (some db) = (200, "")) ∧
    (∀ s, db.settings.find? (fun t => t.type == "site") = some s →
       (s.musicEnabled.getD false = false → get_music_settings (some db) = (200, "")) ∧
       (s.musicEnabled.getD false = true →
          get_music_settings (some db) = (200, s.musicUrl.getD ""))) := by
  constructor
  · intro h
    simp [get_music_settings, h]
  · intro s hs
    constructor
    · intro hm
      simp [get_music_settings, hs, hm]
    · intro hm
      simp [get_music_settings, hs, hm]

/-- C9 witness: with a stored enabled settings document the projection
discloses the stored url. -/
theorem get_music_settings_projection_witness :
    get_music_settings (some dbMusicOn) = (200, "https://m.example/a.mp3") :=
  ((get_music_settings_projection dbMusicOn).2 siteDocOn (by decide)).2 (by decide)

/-- One settings PUT keeps the site-document count at most one: an
existing match is rewritten in place (still `type: site`), a miss
inserts exactly one document into an otherwise matchless collection. -/
theorem siteCount_update_settings_le_one (db : DB) (p : SettingsPayload) (now : Nat)
    (h : siteCount db ≤ 1) :
    siteCount (((update_settings (some db) p now).2).getD db) ≤ 1 := by
  by_cases hf : (db.settings.find? (fun s => s.type == "site")).isSome
  · simp only [update_settings, hf, if_true, Option.getD_some, siteCount]
    rw [length_filter_updateFirst _ _ (fun x _ => rfl)]
    exact h
  · have hnone : db.settings.find? (fun s => s.type == "site") = none := by
      cases hfind : db.settings.find? (fun s => s.type == "site") with
      | none => rfl
      | some s => rw [hfind] at hf; simp at hf
    have h0 : db.settings.filter (fun s => s.type == "site") = [] := by
      rw [List.filter_eq_nil_iff]
      intro a ha
      exact List.find?_eq_none.mp hnone a ha
    simp only [update_settings, hf, Bool.false_eq_true, if_false, Option.getD_some, siteCount]
    simp [h0]

/-- C6: starting from a state holding at most one `type: site` settings
document, any sequence of settings PUTs (each an upsert keyed on the
fixed `type: site` filter) leaves at most one such document. -/
theorem settings_singleton_invariant (db : DB) (ops : List (SettingsPayload × Nat))
    (h : siteCount db ≤ 1) :
    siteCount (runSettingsUpdates db ops) ≤ 1 := by
  induction ops generalizing db with
  | nil => exact h
  | cons op ops ih =>
    have hstep := siteCount_update_settings_le_one db op.1 op.2 h
    simpa [runSettingsUpdates, List.foldl] using
      ih (((update_settings (some db) op.1 op.2).2).getD db) hstep

/-- C6 witness: from the empty state, two PUTs leave at most one
settings document. -/
theorem settings_singleton_invariant_witness :
    siteCount (runSettingsUpdates dbEmpty
      [({ musicUrl := some "u1", musicEnabled := some true }, 1),
       ({ musicUrl := none, musicEnabled := none }, 2)]) ≤ 1 :=
  settings_singleton_invariant dbEmpty
    [({ musicUrl := some "u1", musicEnabled := some true }, 1),
     ({ musicUrl := none, musicEnabled := none }, 2)] (by decide)

/-- C8: a category-filtered events listing answers 200 with exactly the
stored events of that category sorted descending by date; without a
filter it answers 200 with all events in that order; zero matches is the
empty list with 200, never an error. -/
theorem get_events_filter_sorted (db : DB) (c : String) (hc : c ≠ "") :
    ((get_events (some db) (some c)).1 = 200 ∧
     List.Sorted (fun a b : EventDoc => b.date ≤ a.date) (get_events (some db) (some c)).2 ∧
     (∀ e, e ∈ (get_events (some db) (some c)).2 ↔ e ∈ db.events ∧ e.category = c) ∧
     ((∀ e ∈ db.events, e.category ≠ c) → (get_events (some db) (some c)).2 = [])) ∧
    ((get_events (some db) none).1 = 200 ∧
     List.Sorted (fun a b : EventDoc => b.date ≤ a.date) (get_events (some db) none).2 ∧
     List.Perm (get_events (some db) none).2 db.events) := by
  haveI htot : IsTotal EventDoc (fun a b => b.date ≤ a.date) :=
    ⟨fun a b => le_total b.date a.date⟩
  haveI htrans : IsTrans EventDoc (fun a b => b.date ≤ a.date) :=
    ⟨fun a b c h1 h2 => le_trans h2 h1⟩
  have hce : (c == "") = false := beq_eq_false_iff_ne.mpr hc
  refine ⟨⟨?_, ?_, ?_, ?_⟩, ?_, ?_, ?_⟩
  · simp [get_events, hce]
  · simp only [get_events, hce, Bool.false_eq_true, if_false]
    exact List.sorted_insertionSort _ _
  · intro e
    simp [get_events, hce]
  · intro hnone
    simp only [get_events, hce, Bool.false_eq_true, if_false]
    have hfil : db.events.filter (fun e => e.category == c) = [] := by
      rw [List.filter_eq_nil_iff]
      intro a ha
      simp [hnone a ha]
    simp [hfil]
  · simp [get_events]
  · simp only [get_events]
    exact List.sorted_insertionSort _ _
  · simp only [get_events]
    exact List.perm_insertionSort _ _

/-- C8 witness: filtering the three-event fixture by `youth` answers
200 with a date-descending list holding the youth events and not the
kids event. -/
theorem get_events_filter_sorted_witness :
    (get_events (some dbEvents) (some "youth")).1 = 200 ∧
    List.Sorted (fun a b : EventDoc => b.date ≤ a.date)
      (get_events (some dbEvents) (some "youth")).2 ∧
    eventC ∈ (get_events (some dbEvents) (some "youth")).2 ∧
    eventA ∈ (get_events (some dbEvents) (some "youth")).2 ∧
    eventB ∉ (get_events (some dbEvents) (some "youth")).2 := by
  have h := (get_events_filter_sorted dbEvents "youth" (by decide)).1
  refine ⟨h.1, h.2.1, (h.2.2.1 eventC).mpr ⟨by decide, rfl⟩,
          (h.2.2.1 eventA).mpr ⟨by decide, rfl⟩, fun hmem => ?_⟩
  exact absurd ((h.2.2.1 eventB).mp hmem).2 (by decide)

/-- C5: a successful single-sermon fetch answers 200 with the
post-increment view count, persists exactly that increment, and a
second sequential fetch returns a strictly larger count. -/
theorem get_sermon_increments_views (db : DB) (sid : String) (s : SermonDoc)
    (hv : isValidObjectId sid = true)
    (hf : db.sermons.find? (fun t => t.id == sid) = some s) :
    (get_sermon (some db) sid).1 = (200, some { s with views := some (s.views.getD 0 + 1) }) ∧
    (((get_sermon (some db) sid).2).getD db).sermons.find? (fun t => t.id == sid) =
      some { s with views := some (s.views.getD 0 + 1) } ∧
    (get_sermon (some (((get_sermon (some db) sid).2).getD db)) sid).1 =
      (200, some { s with views := some (s.views.getD 0 + 2) }) ∧
    s.views.getD 0 + 1 < s.views.getD 0 + 2 := by
  have hfu : (updateFirst (fun t => t.id == sid)
      (fun t => { t with views := some (t.views.getD 0 + 1) }) db.sermons).find?
        (fun t => t.id == sid) = some { s with views := some (s.views.getD 0 + 1) } := by
    rw [find?_updateFirst (fun t => t.id == sid)
          (fun t => { t with views := some (t.views.getD 0 + 1) }) (fun x hx => hx) db.sermons,
        hf]
    rfl
  have hstep : (get_sermon (some db) sid).2 =
      some { db with sermons := updateFirst (fun t => t.id == sid) (fun t => { t with views := some (t.views.getD 0 + 1) }) db.sermons } := by
    simp [get_sermon, hv, hf]
  refine ⟨?_, ?_, ?_, by omega⟩
  · simp [get_sermon, hv, hf]
  · rw [hstep]
    exact hfu
  · rw [hstep]
    simp [get_sermon, hv, hfu]

/-- C5 witness: fetching the two-view fixture sermon returns three
views, persists three, and a second fetch returns four. -/
theorem get_sermon_increments_views_witness :
    (get_sermon (some dbSermon) "65a000000000000000000020").1 =
      (200, some { sermonA with views := some 3 }) ∧
    (((get_sermon (some dbSermon) "65a000000000000000000020").2).getD dbSermon).sermons.find?
        (fun t => t.id == "65a000000000000000000020") =
      some { sermonA with views := some 3 } ∧
    (get_sermon
        (some (((get_sermon (some dbSermon) "65a000000000000000000020").2).getD dbSermon))
        "65a000000000000000000020").1 =
      (200, some { sermonA with views := some 4 }) ∧
    (2 : Nat) + 1 < 2 + 2 :=
  get_sermon_increments_views dbSermon "65a000000000000000000020" sermonA
    (by decide) (by decide)

/-- C7: updating an existing event replaces every caller-driven field
(required fields from the payload, `image`/`category` with their
defaults), leaves the identifier and `createdAt` unchanged, and
refreshes `updatedAt`; an update naming a non-existent (well-formed) id
answers 404 and changes nothing. -/
theorem update_event_replaces_fields_preserves_protected
    (db : DB) (eid : String) (p : EventPayload) (now : Nat)
    (t d ti loc desc : String)
    (hv : isValidObjectId eid = true)
    (ht : p.title = some t) (hd : p.date = some d) (hti : p.time = some ti)
    (hl : p.location = some loc) (hde : p.description = some desc) :
    (∀ e, db.events.find? (fun x => x.id == eid) = some e →
       (update_event (some db) eid p now).1.1 = 200 ∧
       (((update_event (some db) eid p now).2).getD db).events.find? (fun x => x.id == eid) = some { id := e.id, title := t, date := d, time := ti, location := loc, description := desc, image := p.image.getD "", category := p.category.getD "upcoming", createdAt := e.createdAt, updatedAt := some now }) ∧
    (db.events.find? (fun x => x.id == eid) = none →
       (update_event (some db) eid p now).1.1 = 404 ∧
       (update_event (some db) eid p now).2 = some db) := by
  constructor
  · intro e he
    have hsome : (db.events.find? (fun x => x.id == eid)).isSome = true := by
      rw [he]
      rfl
    have hfu : (updateFirst (fun x => x.id == eid) (fun x => { x with title := t, date := d, time := ti, location := loc, description := desc, image := p.image.getD "", category := p.category.getD "upcoming", updatedAt := some now }) db.events).find? (fun x => x.id == eid) = some { id := e.id, title := t, date := d, time := ti, location := loc, description := desc, image := p.image.getD "", category := p.category.getD "upcoming", createdAt := e.createdAt, updatedAt := some now } := by
      rw [find?_updateFirst (fun x => x.id == eid) (fun x => { x with title := t, date := d, time := ti, location := loc, description := desc, image := p.image.getD "", category := p.category.getD "upcoming", updatedAt := some now }) (fun x hx => hx) db.events, he]
      rfl
    constructor
    · simp [update_event, ht, hd, hti, hl, hde, hv, hsome]
    · simp only [update_event, ht, hd, hti, hl, hde, hv, hsome]
      simpa using hfu
  · intro hnone
    have hsome : (db.events.find? (fun x => x.id == eid)).isSome = false := by
      rw [hnone]
      rfl
    constructor <;> simp [update_event, ht, hd, hti, hl, hde, hv, hsome]

/-- C7 witness: updating the first fixture event rewrites its payload
fields, keeps its id and creation tick, stamps `updatedAt`; updating an
absent id answers 404 and leaves the database untouched. -/
theorem update_event_replaces_fields_preserves_protected_witness :
    ((update_event (some dbEvents) "65a000000000000000000010" fullEventPayload 9).1.1 = 200 ∧
     (((update_event (some dbEvents) "65a000000000000000000010" fullEventPayload 9).2).getD dbEvents).events.find? (fun x => x.id == "65a000000000000000000010") = some { id := "65a000000000000000000010", title := "T", date := "2025-01-01", time := "10:00", location := "Hall", description := "d", image := "", category := "youth", createdAt := 3, updatedAt := some 9 }) ∧
    ((update_event (some dbEvents) "65a000000000000000000099" fullEventPayload 9).1.1 = 404 ∧
     (update_event (some dbEvents) "65a000000000000000000099" fullEventPayload 9).2 = some dbEvents) :=
  ⟨(update_event_replaces_fields_preserves_protected dbEvents "65a000000000000000000010"
      fullEventPayload 9 "T" "2025-01-01" "10:00" "Hall" "d"
      (by decide) rfl rfl rfl rfl rfl).1 eventA (by decide),
   (update_event_replaces_fields_preserves_protected dbEvents "65a000000000000000000099"
      fullEventPayload 9 "T" "2025-01-01" "10:00" "Hall" "d"
      (by decide) rfl rfl rfl rfl rfl).2 (by decide)⟩

/-- C1 counterexample: the fixture store holds the email with status
`inactive`, yet subscribing it again answers 400 `Already subscribed`
and leaves the store byte-identical — no flip to active, no distinct
reactivation response. -/
theorem subscribe_inactive_not_reactivated_cex :
    (subscribe_newsletter (some dbInactiveSub) "a@b.c" 5 "65a000000000000000000002").1.1 = 400 ∧
    (subscribe_newsletter (some dbInactiveSub) "a@b.c" 5 "65a000000000000000000002").2 = some dbInactiveSub ∧
    dbInactiveSub.subscribers.find? (fun s => s.email == "a@b.c") = some { id := "65a000000000000000000001", email := "a@b.c", status := "inactive", subscribedAt := 0 } := by
  decide

/-- C1 amended: any subscribe request whose email already exists —
active or inactive alike — is rejected as a duplicate (400) and writes
nothing; a fresh email inserts one active subscriber and answers 201. -/
theorem subscribe_duplicate_reject_fresh_insert (db : DB) (email : String)
    (now : Nat) (newId : String) :
    (∀ s, db.subscribers.find? (fun t => t.email == email) = some s →
       (subscribe_newsletter (some db) email now newId).1.1 = 400 ∧
       (subscribe_newsletter (some db) email now newId).2 = some db) ∧
    (db.subscribers.find? (fun t => t.email == email) = none →
       (subscribe_newsletter (some db) email now newId).1.1 = 201 ∧
       (subscribe_newsletter (some db) email now newId).2 = some { db with subscribers := db.subscribers ++ [{ id := newId, email := email, status := "active", subscribedAt := now }] }) := by
  constructor
  · intro s hs
    constructor <;> simp [subscribe_newsletter, hs]
  · intro hnone
    constructor <;> simp [subscribe_newsletter, hnone]

/-- C1 witness: the duplicate branch fires on the inactive fixture. -/
theorem subscribe_duplicate_reject_fresh_insert_witness :
    (subscribe_newsletter (some dbInactiveSub) "a@b.c" 5 "65a000000000000000000002").1.1 = 400 ∧
    (subscribe_newsletter (some dbInactiveSub) "a@b.c" 5 "65a000000000000000000002").2 = some dbInactiveSub :=
  (subscribe_duplicate_reject_fresh_insert dbInactiveSub "a@b.c" 5 "65a000000000000000000002").1
    { id := "65a000000000000000000001", email := "a@b.c", status := "inactive", subscribedAt := 0 }
    (by decide)

/-- C2 counterexample: creating an event without `title` answers 500
via the generic exception handler (the `KeyError` path), not the 400
validation error the claim states. -/
theorem create_event_missing_title_cex :
    (create_event (some dbEmpty) noTitlePayload 0 "65a000000000000000000003").1.1 = 500 ∧
    ¬ (create_event (some dbEmpty) noTitlePayload 0 "65a000000000000000000003").1.1 = 400 := by
  decide

/-- C2 amended: a create missing any required field answers 500 (not
400) via the generic exception handler, with a message naming the first
missing field in the handler's evaluation order (title, date, time,
location, description), inserting nothing; supplying all required
fields answers 201 with the generated identifier and inserts the
document stamped with the creation tick. -/
theorem create_event_validation_and_success (db : DB) (p : EventPayload)
    (now : Nat) (newId : String) :
    (p.title = none →
       (create_event (some db) p now newId).1.1 = 500 ∧
       (create_event (some db) p now newId).1.2.1 = "Error: \x27title\x27" ∧
       (create_event (some db) p now newId).2 = some db) ∧
    (∀ t, p.title = some t → p.date = none →
       (create_event (some db) p now newId).1.1 = 500 ∧
       (create_event (some db) p now newId).1.2.1 = "Error: \x27date\x27" ∧
       (create_event (some db) p now newId).2 = some db) ∧
    (∀ t d, p.title = some t → p.date = some d → p.time = none →
       (create_event (some db) p now newId).1.1 = 500 ∧
       (create_event (some db) p now newId).1.2.1 = "Error: \x27time\x27" ∧
       (create_event (some db) p now newId).2 = some db) ∧
    (∀ t d ti, p.title = some t → p.date = some d → p.time = some ti →
       p.location = none →
       (create_event (some db) p now newId).1.1 = 500 ∧
       (create_event (some db) p now newId).1.2.1 = "Error: \x27location\x27" ∧
       (create_event (some db) p now newId).2 = some db) ∧
    (∀ t d ti loc, p.title = some t → p.date = some d → p.time = some ti →
       p.location = some loc → p.description = none →
       (create_event (some db) p now newId).1.1 = 500 ∧
       (create_event (some db) p now newId).1.2.1 = "Error: \x27description\x27" ∧
       (create_event (some db) p now newId).2 = some db) ∧
    (∀ t d ti loc desc, p.title = some t → p.date = some d → p.time = some ti →
       p.location = some loc → p.description = some desc →
       (create_event (some db) p now newId).1.1 = 201 ∧
       (create_event (some db) p now newId).1.2.2 = some newId ∧
       (create_event (some db) p now newId).2 = some { db with events := db.events ++ [{ id := newId, title := t, date := d, time := ti, location := loc, description := desc, image := p.image.getD "", category := p.category.getD "upcoming", createdAt := now, updatedAt := none }] }) := by
  refine ⟨fun h1 => ?_, fun t h1 h2 => ?_, fun t d h1 h2 h3 => ?_,
         fun t d ti h1 h2 h3 h4 => ?_, fun t d ti loc h1 h2 h3 h4 h5 => ?_,
         fun t d ti loc desc h1 h2 h3 h4 h5 => ?_⟩
  · refine ⟨?_, ?_, ?_⟩ <;> simp [create_event, h1]
  · refine ⟨?_, ?_, ?_⟩ <;> simp [create_event, h1, h2]
  · refine ⟨?_, ?_, ?_⟩ <;> simp [create_event, h1, h2, h3]
  · refine ⟨?_, ?_, ?_⟩ <;> simp [create_event, h1, h2, h3, h4]
  · refine ⟨?_, ?_, ?_⟩ <;> simp [create_event, h1, h2, h3, h4, h5]
  · refine ⟨?_, ?_, ?_⟩ <;> simp [create_event, h1, h2, h3, h4, h5]

/-- C2 witness: a payload missing `title` and one missing only `date`
each answer 500 naming that field and insert nothing; the complete
fixture payload creates the event. -/
theorem create_event_validation_and_success_witness :
    ((create_event (some dbEmpty) noTitlePayload 0 "65a000000000000000000003").1.1 = 500 ∧
     (create_event (some dbEmpty) noTitlePayload 0 "65a000000000000000000003").1.2.1 = "Error: \x27title\x27" ∧
     (create_event (some dbEmpty) noTitlePayload 0 "65a000000000000000000003").2 = some dbEmpty) ∧
    ((create_event (some dbEmpty) noDatePayload 0 "65a000000000000000000003").1.1 = 500 ∧
     (create_event (some dbEmpty) noDatePayload 0 "65a000000000000000000003").1.2.1 = "Error: \x27date\x27" ∧
     (create_event (some dbEmpty) noDatePayload 0 "65a000000000000000000003").2 = some dbEmpty) ∧
    ((create_event (some dbEmpty) fullEventPayload 7 "65a000000000000000000030").1.1 = 201 ∧
     (create_event (some dbEmpty) fullEventPayload 7 "65a000000000000000000030").1.2.2 = some "65a000000000000000000030" ∧
     (create_event (some dbEmpty) fullEventPayload 7 "65a000000000000000000030").2 = some { dbEmpty with events := dbEmpty.events ++ [{ id := "65a000000000000000000030", title := "T", date := "2025-01-01", time := "10:00", location := "Hall", description := "d", image := "", category := "youth", createdAt := 7, updatedAt := none }] }) :=
  ⟨(create_event_validation_and_success dbEmpty noTitlePayload 0 "65a000000000000000000003").1 rfl,
   (create_event_validation_and_success dbEmpty noDatePayload 0 "65a000000000000000000003").2.1
     "T" rfl rfl,
   (create_event_validation_and_success dbEmpty fullEventPayload 7 "65a000000000000000000030").2.2.2.2.2
     "T" "2025-01-01" "10:00" "Hall" "d" rfl rfl rfl rfl rfl⟩

/-- C3 counterexample: a malformed identifier makes the single-event
fetch answer 500 (the unexpected-error branch), not the 404 the claim
states. -/
theorem get_event_malformed_id_cex :
    (get_event (some dbEvents) "not-a-valid-objectid").1 = 500 ∧
    ¬ (get_event (some dbEvents) "not-a-valid-objectid").1 = 404 := by
  decide

/-- C3 amended: the get-by-id handler never crashes but splits the
error paths — malformed identifier → 500 via the generic exception
handler, well-formed but non-existent identifier → 404, existing
document → 200 with the document. -/
theorem get_event_error_paths (db : DB) (eid : String) :
    (isValidObjectId eid = false → (get_event (some db) eid).1 = 500) ∧
    (isValidObjectId eid = true → db.events.find? (fun e => e.id == eid) = none →
       (get_event (some db) eid).1 = 404) ∧
    (∀ e, isValidObjectId eid = true → db.events.find? (fun x => x.id == eid) = some e →
       get_event (some db) eid = (200, some e)) := by
  refine ⟨fun hbad => ?_, fun hv hnone => ?_, fun e hv hsome => ?_⟩
  · simp [get_event, hbad]
  · simp [get_event, hv, hnone]
  · simp [get_event, hv, hsome]

/-- C3 witness: malformed id → 500; absent well-formed id → 404. -/
theorem get_event_error_paths_witness :
    (get_event (some dbEmpty) "zzz").1 = 500 ∧
    (get_event (some dbEmpty) "65a000000000000000000040").1 = 404 :=
  ⟨(get_event_error_paths dbEmpty "zzz").1 (by decide),
   (get_event_error_paths dbEmpty "65a000000000000000000040").2.1 (by decide) (by decide)⟩

/-- C4 counterexample: the fixture store already has an administrator
with email `shared@x.y`; registering a new username with that same
email answers 201 and leaves two administrators sharing the email —
email uniqueness is never checked. -/
theorem register_admin_email_not_unique_cex :
    (register_admin (some dbOneAdmin) "bob" "shared@x.y" "h2" 1 "65a000000000000000000005").1.1 = 201 ∧
    ((register_admin (some dbOneAdmin) "bob" "shared@x.y" "h2" 1 "65a000000000000000000005").2.map (fun d => (d.admins.filter (fun a => a.email == "shared@x.y")).length)) = some 2 := by
  decide

/-- C4 amended: only username uniqueness is enforced at write time — a
register attempt whose username matches an existing administrator is
rejected (400) and inserts nothing, while any attempt with a fresh
username succeeds (201) and inserts one record, its email never being
compared against existing administrators. -/
theorem register_admin_username_uniqueness (db : DB)
    (username email hashedPassword : String) (now : Nat) (newId : String) :
    (∀ a, db.admins.find? (fun x => x.username == username) = some a →
       (register_admin (some db) username email hashedPassword now newId).1.1 = 400 ∧
       (register_admin (some db) username email hashedPassword now newId).2 = some db) ∧
    (db.admins.find? (fun x => x.username == username) = none →
       (register_admin (some db) username email hashedPassword now newId).1.1 = 201 ∧
       (register_admin (some db) username email hashedPassword now newId).2 = some { db with admins := db.admins ++ [{ id := newId, username := username, email := email, password := hashedPassword, createdAt := now }] }) := by
  constructor
  · intro a ha
    constructor <;> simp [register_admin, ha]
  · intro hnone
    constructor <;> simp [register_admin, hnone]

/-- C4 witness: duplicate username rejected; fresh username with a
duplicate email inserted. -/
theorem register_admin_username_uniqueness_witness :
    ((register_admin (some dbOneAdmin) "alice" "other@x.y" "h3" 2 "65a000000000000000000006").1.1 = 400 ∧
     (register_admin (some dbOneAdmin) "alice" "other@x.y" "h3" 2 "65a000000000000000000006").2 = some dbOneAdmin) ∧
    ((register_admin (some dbOneAdmin) "bob" "shared@x.y" "h2" 1 "65a000000000000000000005").1.1 = 201 ∧
     (register_admin (some dbOneAdmin) "bob" "shared@x.y" "h2" 1 "65a000000000000000000005").2 = some { dbOneAdmin with admins := dbOneAdmin.admins ++ [{ id := "65a000000000000000000005", username := "bob", email := "shared@x.y", password := "h2", createdAt := 1 }] }) :=
  ⟨(register_admin_username_uniqueness dbOneAdmin "alice" "other@x.y" "h3" 2 "65a000000000000000000006").1
     { id := "65a000000000000000000004", username := "alice", email := "shared@x.y", password := "h1", createdAt := 0 }
     (by decide),
   (register_admin_username_uniqueness dbOneAdmin "bob" "shared@x.y" "h2" 1 "65a000000000000000000005").2
     (by decide)⟩
